import Mathlib

/-!
Shallow embedding of the collision and motion resolution subsystem of the
`propan` 2D arcade game (Rust sources under `src/`), together with theorems
settling the spec claims about it.

Floating-point (`f32`) arithmetic is modelled by exact rational arithmetic
(`ℚ`); `f32::sqrt` in the wall collision test is modelled over `ℝ` with
`Real.sqrt`.  The `as i32` cast of a float is modelled as truncation toward
zero of the rational value.
-/

set_option maxHeartbeats 1000000

/-- 2D vector with rational components, modelling `na::Vector2<f32>`
(used for positions, velocities, dimensions and overlap deltas). -/
structure Vec2 where
  x : ℚ
  y : ℚ
deriving DecidableEq, Repr

/-- The zero vector, `util::default_vector2()`. -/
def Vec2.zero : Vec2 := ⟨0, 0⟩

/-- Componentwise vector addition. -/
def Vec2.add (a b : Vec2) : Vec2 := ⟨a.x + b.x, a.y + b.y⟩

/-- Componentwise vector subtraction. -/
def Vec2.sub (a b : Vec2) : Vec2 := ⟨a.x - b.x, a.y - b.y⟩

/-- Componentwise vector negation. -/
def Vec2.neg (a : Vec2) : Vec2 := ⟨-a.x, -a.y⟩

/-- Scalar multiplication of a vector. -/
def Vec2.smul (k : ℚ) (a : Vec2) : Vec2 := ⟨k * a.x, k * a.y⟩

/-- Componentwise division of a vector by a scalar
(`self.acc_overlaps / self.num_overlaps as f32`). -/
def Vec2.divScalar (a : Vec2) (k : ℚ) : Vec2 := ⟨a.x / k, a.y / k⟩

/-- `na::dot`. -/
def Vec2.dot (a b : Vec2) : ℚ := a.x * b.x + a.y * b.y

/-- `na::norm_squared`. -/
def Vec2.normSq (a : Vec2) : ℚ := a.x * a.x + a.y * a.y

/-- `physics::rigid_bounce` (src/physics.rs lines 34-55): the new velocity for
a ball which collides with an object, obtained by case analysis on the
overlap vector: both components zero leaves the velocity unchanged, a zero x
component flips the y velocity, a zero y component flips the x velocity, and
otherwise the velocity is reflected:
`vel = -(n * 2 * dot(v, n) / norm_squared(n) - v)`. -/
def rigid_bounce (vel overlap : Vec2) : Vec2 :=
  let v := overlap
  if v.x = 0 ∧ v.y = 0 then
    vel
  else if v.x = 0 then
    ⟨vel.x, -vel.y⟩
  else if v.y = 0 then
    ⟨-vel.x, vel.y⟩
  else
    let n := v
    Vec2.neg (Vec2.sub (Vec2.smul (2 * Vec2.dot vel n / Vec2.normSq n) n) vel)

/-- `physics::CollisionInfo`: result of a collision test, `No` or `Yes` with
the overlap vector (minimal translation vector, doubling as contact normal). -/
inductive CollisionInfo where
  | No : CollisionInfo
  | Yes (overlap : Vec2) : CollisionInfo
deriving DecidableEq, Repr

/-- `LeftBorder::test_circle_collision` (src/physics.rs lines 152-159):
`dx = bound + radius - position.x`; `No` when `dx <= 0`, else `Yes (dx, 0)`. -/
def LeftBorder.test_circle_collision (bound : ℚ) (position : Vec2) (radius : ℚ) :
    CollisionInfo :=
  let dx := bound + radius - position.x
  if dx ≤ 0 then CollisionInfo.No else CollisionInfo.Yes ⟨dx, 0⟩

/-- `RightBorder::test_circle_collision` (src/physics.rs lines 173-180):
`dx = bound - position.x - radius`; `No` when `dx > 0`, else `Yes (dx, 0)`. -/
def RightBorder.test_circle_collision (bound : ℚ) (position : Vec2) (radius : ℚ) :
    CollisionInfo :=
  let dx := bound - position.x - radius
  if dx > 0 then CollisionInfo.No else CollisionInfo.Yes ⟨dx, 0⟩

/-- `UpBorder::test_circle_collision` (src/physics.rs lines 194-201):
`dy = bound + radius - position.y`; `No` when `dy <= 0`, else `Yes (0, dy)`. -/
def UpBorder.test_circle_collision (bound : ℚ) (position : Vec2) (radius : ℚ) :
    CollisionInfo :=
  let dy := bound + radius - position.y
  if dy ≤ 0 then CollisionInfo.No else CollisionInfo.Yes ⟨0, dy⟩

/-- `DownBorder::test_circle_collision` (src/physics.rs lines 215-222):
`dy = bound - position.y - radius`; `No` when `dy > 0`, else `Yes (0, dy)`. -/
def DownBorder.test_circle_collision (bound : ℚ) (position : Vec2) (radius : ℚ) :
    CollisionInfo :=
  let dy := bound - position.y - radius
  if dy > 0 then CollisionInfo.No else CollisionInfo.Yes ⟨0, dy⟩

/-- Casting an `f32` value to `i32` with `as` in Rust truncates toward zero;
on the rational model this is floor for nonnegative values and ceiling for
negative ones. -/
def f32_as_i32 (q : ℚ) : ℤ := if 0 ≤ q then ⌊q⌋ else ⌈q⌉

/-- `scene::position_to_cell` (src/game/scene.rs lines 213-216):
`((pos[0] / cell_size) as i32, (pos[1] / cell_size) as i32)`. -/
def position_to_cell (pos : Vec2) (cell_size : ℚ) : ℤ × ℤ :=
  (f32_as_i32 (pos.x / cell_size), f32_as_i32 (pos.y / cell_size))

/-- A positioned prop implementing `SimpleCollidable` by the common pattern of
`Pump`, `Mine`, `Gem` and `Finish` (src/game/entities.rs): the collision test
is `norm_squared(self.pos - position) <= d * d` with
`d = r_eff + radius`, where `r_eff` is the per-entity constant term
(`PUMP_SIZE/2 - 2` for pumps, `MINE_SIZE/2 + 1` for mines,
`GEM_SIZE/2 + 1` for gems, `FINISH_SIZE/2 + 1` for the finish flag). -/
structure SimpleProp where
  pos : Vec2
  r_eff : ℚ
deriving DecidableEq, Repr

/-- The shared `test_circle_collision_simple` body of the simple collidables
(e.g. `Mine`, src/game/entities.rs lines 147-150). -/
def SimpleProp.test_circle_collision_simple (e : SimpleProp) (position : Vec2)
    (radius : ℚ) : Bool :=
  let d := e.r_eff + radius
  decide (Vec2.normSq (Vec2.sub e.pos position) ≤ d * d)

/-- `FlatScene::at` (src/game/scene.rs lines 31-33): all stored props are
returned, regardless of the query position.  A `FlatScene` built by
`FlatScene::from_objects` stores the given props in order, so the scene is
modelled by its prop list. -/
def flatAt (props : List SimpleProp) (_pos : Vec2) : List SimpleProp := props

/-- `HashGridScene::at` (src/game/scene.rs lines 90-98).  A `HashGridScene`
built by `HashGridScene::from_objects` maps each cell id to the list of props
assigned to that cell (assignment by `position_to_cell`, insertion order
preserved), so the bucket of cell `c` is `props.filter (cell = c)`.  The
query computes the cell of `pos` and chains the buckets of the cells at the
offsets `[-1, 0, -1] × [-1, 0, 1]` from it — the offset list for x is
`[-1, 0, -1]` in the source, not `[-1, 0, 1]`.  `HashGridScene::at_mut`
(lines 102-116) visits exactly the same cells. -/
def hashGridAt (cell_size : ℚ) (props : List SimpleProp) (pos : Vec2) :
    List SimpleProp :=
  let cell := position_to_cell pos cell_size
  ((([-1, 0, -1] : List ℤ).flatMap fun x => ([-1, 0, 1] : List ℤ).map fun y => (x, y))
      |>.map fun c => (c.1 + cell.1, c.2 + cell.2))
    |>.flatMap fun c => props.filter fun w => decide (position_to_cell w.pos cell_size = c)

/-- `BALL_CAPACITY` (src/game/ball.rs line 8). -/
def BALL_CAPACITY : ℚ := 34

/-- `TOO_MUCH_SPEED_SQR` (src/game/ball.rs line 10). -/
def TOO_MUCH_SPEED_SQR : ℚ := 22

/-- `game::ball::Ball` (src/game/ball.rs lines 12-19): position, velocity
and size (diameter, doubling as the health gauge). -/
structure Ball where
  pos : Vec2
  vel : Vec2
  size : ℚ
deriving DecidableEq, Repr

/-- `Ball::add_position`: `self.pos += pos`. -/
def Ball.add_position (b : Ball) (t : Vec2) : Ball :=
  { b with pos := Vec2.add b.pos t }

/-- `Ball::speed_sqr`: `norm_squared(&self.vel)`. -/
def Ball.speed_sqr (b : Ball) : ℚ := Vec2.normSq b.vel

/-- `Ball::thrust`: `self.vel += thrust`. -/
def Ball.thrust (b : Ball) (t : Vec2) : Ball :=
  { b with vel := Vec2.add b.vel t }

/-- `Ball::decay_velocity`: `self.vel -= self.vel * factor`. -/
def Ball.decay_velocity (b : Ball) (factor : ℚ) : Ball :=
  { b with vel := Vec2.sub b.vel (Vec2.smul factor b.vel) }

/-- `Ball::set_velocity`. -/
def Ball.set_velocity (b : Ball) (v : Vec2) : Ball :=
  { b with vel := v }

/-- `Ball::add_size`: `self.size = f32::max(0., self.size + size_delta)`. -/
def Ball.add_size (b : Ball) (size_delta : ℚ) : Ball :=
  { b with size := max 0 (b.size + size_delta) }

/-- `Ball::is_dead` (src/game/ball.rs lines 118-120):
`self.size < 4. || self.size > BALL_CAPACITY + 2.`. -/
def Ball.is_dead (b : Ball) : Bool :=
  decide (b.size < 4) || decide (b.size > BALL_CAPACITY + 2)

/-- `Ball::update_position`: `self.pos += self.vel * factor`. -/
def Ball.update_position (b : Ball) (factor : ℚ) : Ball :=
  { b with pos := Vec2.add b.pos (Vec2.smul factor b.vel) }

/-- `game::ball::BallController` (src/game/ball.rs lines 156-169): the ball,
the four thrust flags, the per-tick overlap accumulator and the gem count
(the resource manager handle carries no physics state and is omitted). -/
structure BallController where
  ball : Ball
  thrust_right : Bool
  thrust_left : Bool
  thrust_up : Bool
  thrust_down : Bool
  acc_overlaps : Vec2
  num_overlaps : ℕ
  num_gems : ℕ
deriving DecidableEq, Repr

/-- `BallController::issue_bounce` (src/game/ball.rs lines 337-340):
`self.acc_overlaps += overlap; self.num_overlaps += 1`. -/
def BallController.issue_bounce (s : BallController) (overlap : Vec2) :
    BallController :=
  { s with acc_overlaps := Vec2.add s.acc_overlaps overlap,
           num_overlaps := s.num_overlaps + 1 }

/-- `BallController::correct_and_rigid_bounce` (src/game/ball.rs lines
305-311): correct the position by the overlap, then set the velocity to the
rigid bounce of the (unchanged) velocity about the overlap. -/
def BallController.correct_and_rigid_bounce (s : BallController)
    (overlap : Vec2) : BallController :=
  let b := s.ball.add_position overlap
  { s with ball := b.set_velocity (rigid_bounce b.vel overlap) }

/-- Resolution phase of `BallController::update` (src/game/ball.rs lines
222-231): when `num_overlaps > 0`, average the accumulated overlaps,
correct-and-bounce, dampen the velocity by `6e-3` and clear the
accumulator. -/
def BallController.resolve_overlaps (s : BallController) : BallController :=
  if 0 < s.num_overlaps then
    let overlap := Vec2.divScalar s.acc_overlaps (s.num_overlaps : ℚ)
    let s1 := s.correct_and_rigid_bounce overlap
    let s2 := { s1 with ball := s1.ball.decay_velocity (6 / 1000) }
    { s2 with acc_overlaps := Vec2.zero, num_overlaps := 0 }
  else s

/-- The rest of `BallController::update` (src/game/ball.rs lines 233-257):
thrust `6.0e-2 * factor` for each held direction flag while counting the
total effort, dampen by `5e-3` when the squared speed exceeds
`TOO_MUCH_SPEED_SQR`, integrate the position, and shrink the size by
`total_effort * 1.2e-2 * factor`. -/
def BallController.post_resolution (s : BallController) (factor : ℚ) :
    BallController :=
  let thrust_force : ℚ := 6 / 100 * factor
  let p1 := if s.thrust_right then ((s.ball.thrust ⟨thrust_force, 0⟩ : Ball), 1)
    else (s.ball, 0)
  let p2 := if s.thrust_left then ((p1.1.thrust ⟨-thrust_force, 0⟩ : Ball), p1.2 + 1)
    else p1
  let p3 := if s.thrust_up then ((p2.1.thrust ⟨0, -thrust_force⟩ : Ball), p2.2 + 1)
    else p2
  let p4 := if s.thrust_down then ((p3.1.thrust ⟨0, thrust_force⟩ : Ball), p3.2 + 1)
    else p3
  let b := if TOO_MUCH_SPEED_SQR < p4.1.speed_sqr then p4.1.decay_velocity (5 / 1000)
    else p4.1
  let b := b.update_position factor
  let b := b.add_size ((p4.2 : ℚ) * (-(12 / 1000)) * factor)
  { s with ball := b }

/-- `BallController::update` (src/game/ball.rs lines 217-258): an immediate
return when the ball is dead, otherwise overlap resolution followed by
thrust, the soft speed cap, position integration and effort-based size
decay. -/
def BallController.update (s : BallController) (factor : ℚ) : BallController :=
  if s.ball.is_dead then s
  else BallController.post_resolution (BallController.resolve_overlaps s) factor

/-- `BallController`'s `AnimatedObject::heal` (src/game/ball.rs lines
368-370): `self.ball.add_size(health)`. -/
def BallController.heal (s : BallController) (health : ℚ) : BallController :=
  { s with ball := s.ball.add_size health }

/-- `game::entities::Pump` physics state (src/game/entities.rs lines 11-20):
position and the `time_to_pump` cooldown (the rotation phase and the
texture handle are cosmetic and carry no collision behaviour). -/
structure Pump where
  pos : Vec2
  time_to_pump : ℚ
deriving DecidableEq, Repr

/-- `Pump::on_collision_simple` (src/game/entities.rs lines 88-99): when
`time_to_pump <= 0`, heal the ball by 1.0 and do
`self.time_to_pump += 22.`; otherwise do nothing.  Returns the updated pump
and ball. -/
def Pump.on_collision_simple (p : Pump) (ball : BallController) :
    Pump × BallController :=
  if p.time_to_pump ≤ 0 then
    ({ p with time_to_pump := p.time_to_pump + 22 }, ball.heal 1)
  else (p, ball)

/-- 2D vector with real components, for the wall collision test whose
overlap computation involves `f32::sqrt`. -/
structure RVec2 where
  x : ℝ
  y : ℝ

/-- `physics::CollisionInfo` over real vectors. -/
inductive RCollisionInfo where
  | No : RCollisionInfo
  | Yes (overlap : RVec2) : RCollisionInfo

/-- The nearest point of the wall rectangle to the circle center
(src/game/wall.rs lines 52-56): each coordinate of the center clamped to
the rectangle's extent `[pos, pos + dim]`. -/
def wallNearest (wpos wdim position : RVec2) : RVec2 :=
  ⟨max wpos.x (min position.x (wpos.x + wdim.x)),
   max wpos.y (min position.y (wpos.y + wdim.y))⟩

/-- The delta vector from the nearest point to the circle center
(src/game/wall.rs line 57). -/
def wallDelta (wpos wdim position : RVec2) : RVec2 :=
  ⟨position.x - (wallNearest wpos wdim position).x,
   position.y - (wallNearest wpos wdim position).y⟩

/-- `norm_squared` of the delta vector (src/game/wall.rs line 59). -/
def wallDistSq (wpos wdim position : RVec2) : ℝ :=
  (wallDelta wpos wdim position).x * (wallDelta wpos wdim position).x +
    (wallDelta wpos wdim position).y * (wallDelta wpos wdim position).y

/-- `Wall::test_circle_collision` (src/game/wall.rs lines 51-68): collision
iff `dist_sqr <= radius * radius`; on collision the delta vector is scaled
by `(radius - dist) / dist` with `dist = sqrt(dist_sqr)`. -/
noncomputable def Wall.test_circle_collision (wpos wdim position : RVec2)
    (radius : ℝ) : RCollisionInfo :=
  if wallDistSq wpos wdim position ≤ radius * radius then
    let dist := Real.sqrt (wallDistSq wpos wdim position)
    let newdistance_inv := (radius - dist) / dist
    RCollisionInfo.Yes
      ⟨(wallDelta wpos wdim position).x * newdistance_inv,
        (wallDelta wpos wdim position).y * newdistance_inv⟩
  else RCollisionInfo.No

/-- Claim C1: the claimed equivalence of `FlatScene::at` and
`HashGridScene::at` fails on the code.  With cell size 10 (at least the
entity's interaction radius 4 + 6 = 10), a single mine-like entity at
(15, 5) and query point (5, 5): the entity satisfies
`test_circle_collision_simple` (distance² = 100 ≤ 10² = 100) and is yielded
by the flat scene, but the hash-grid query never visits the cell column
x + 1 (its x-offset list is `[-1, 0, -1]`, src/game/scene.rs line 92), so
the entity in cell (1, 0) is missed and the two sets differ. -/
theorem scene_equivalence_failing_input :
    ((flatAt [⟨⟨15, 5⟩, 4⟩] ⟨5, 5⟩).filter
        (fun e => e.test_circle_collision_simple ⟨5, 5⟩ 6) = [⟨⟨15, 5⟩, 4⟩]) ∧
    ((hashGridAt 10 [⟨⟨15, 5⟩, 4⟩] ⟨5, 5⟩).filter
        (fun e => e.test_circle_collision_simple ⟨5, 5⟩ 6) = []) ∧
    (4 : ℚ) + 6 ≤ 10 := by
  refine ⟨?_, ?_, by norm_num⟩
  · simp [flatAt, SimpleProp.test_circle_collision_simple, Vec2.normSq, Vec2.sub]
    norm_num
  · have h : hashGridAt 10 [⟨⟨15, 5⟩, 4⟩] ⟨5, 5⟩ = [] := by
      simp [hashGridAt, position_to_cell, f32_as_i32]
      norm_num
    rw [h]
    rfl

/-- Claim C2: reachability in `HashGridScene::at` is not equivalent to the
assigned cell being within Chebyshev distance 1 of the query point's cell.
With cell size 10, an entity at (15, 5) is assigned cell (1, 0) and the
query point (5, 5) is in cell (0, 0) — Chebyshev distance 1 — yet the
entity is not among the props iterated by `at`, because the x-offset list
`[-1, 0, -1]` (src/game/scene.rs lines 92 and 104) skips the x + 1 column
of the 3×3 block. -/
theorem hash_grid_misses_neighbor_cell :
    position_to_cell ⟨15, 5⟩ 10 = (1, 0) ∧
    position_to_cell ⟨5, 5⟩ 10 = (0, 0) ∧
    max |(1 : ℤ) - 0| |(0 : ℤ) - 0| ≤ 1 ∧
    (⟨⟨15, 5⟩, 4⟩ : SimpleProp) ∉ hashGridAt 10 [⟨⟨15, 5⟩, 4⟩] ⟨5, 5⟩ := by
  refine ⟨?_, ?_, by norm_num, ?_⟩
  · unfold position_to_cell f32_as_i32
    norm_num
  · unfold position_to_cell f32_as_i32
    norm_num
  · have h : hashGridAt 10 [⟨⟨15, 5⟩, 4⟩] ⟨5, 5⟩ = [] := by
      simp [hashGridAt, position_to_cell, f32_as_i32]
      norm_num
    rw [h]
    exact List.not_mem_nil _

/-- Claim C3: `rigid_bounce(v, n)` returns `v` unchanged when `n = (0,0)`;
`v` with only the y component negated when `n.x = 0` (and `n.y ≠ 0`); `v`
with only the x component negated when `n.y = 0` (and `n.x ≠ 0`); and
otherwise `-(n * 2*(v·n)/|n|² - v)`.  In particular
`rigid_bounce((3,-2), (0,5)) = (3, 2)`. -/
theorem rigid_bounce_cases (v n : Vec2) :
    (n = ⟨0, 0⟩ → rigid_bounce v n = v) ∧
    (n.x = 0 → n.y ≠ 0 → rigid_bounce v n = ⟨v.x, -v.y⟩) ∧
    (n.y = 0 → n.x ≠ 0 → rigid_bounce v n = ⟨-v.x, v.y⟩) ∧
    (n.x ≠ 0 → n.y ≠ 0 →
      rigid_bounce v n =
        Vec2.neg (Vec2.sub (Vec2.smul (2 * Vec2.dot v n / Vec2.normSq n) n) v)) ∧
    rigid_bounce ⟨3, -2⟩ ⟨0, 5⟩ = ⟨3, 2⟩ := by
  refine ⟨?_, ?_, ?_, ?_, by decide⟩
  · rintro rfl
    simp [rigid_bounce]
  · intro hx hy
    simp [rigid_bounce, hx, hy]
  · intro hy hx
    simp [rigid_bounce, hx, hy]
  · intro hx hy
    simp [rigid_bounce, hx, hy]

/-- Witness for `rigid_bounce_cases`: the axis-aligned case applied to the
concrete bounce of velocity (3, -2) against overlap (0, 5). -/
theorem rigid_bounce_cases_witness :
    rigid_bounce ⟨3, -2⟩ ⟨0, 5⟩ = ⟨(⟨3, -2⟩ : Vec2).x, -(⟨3, -2⟩ : Vec2).y⟩ :=
  (rigid_bounce_cases ⟨3, -2⟩ ⟨0, 5⟩).2.1 rfl (by norm_num)

/-- Claim C5, amended: the left border behaves as claimed
(`Yes((depth, 0))` with `depth = bound + radius - position.x` exactly when
`depth > 0`, `No` when `depth ≤ 0`, so the exact boundary yields `No`), but
the right and down borders return `No` iff `position.axis + radius` is
STRICTLY below the bound: at the exact boundary they return `Yes` with a
zero overlap component. -/
theorem border_collision_spec (bound : ℚ) (p : Vec2) (radius : ℚ) :
    (0 < bound + radius - p.x →
      LeftBorder.test_circle_collision bound p radius =
        CollisionInfo.Yes ⟨bound + radius - p.x, 0⟩) ∧
    (bound + radius - p.x ≤ 0 →
      LeftBorder.test_circle_collision bound p radius = CollisionInfo.No) ∧
    (RightBorder.test_circle_collision bound p radius = CollisionInfo.No ↔
      p.x + radius < bound) ∧
    (DownBorder.test_circle_collision bound p radius = CollisionInfo.No ↔
      p.y + radius < bound) := by
  refine ⟨?_, ?_, ?_, ?_⟩
  · intro h
    simp only [LeftBorder.test_circle_collision]
    rw [if_neg (by linarith)]
  · intro h
    simp only [LeftBorder.test_circle_collision]
    rw [if_pos h]
  · simp only [RightBorder.test_circle_collision]
    constructor
    · intro h
      by_contra hc
      rw [if_neg (by simpa using by linarith : ¬bound - p.x - radius > 0)] at h
      exact CollisionInfo.noConfusion h
    · intro h
      rw [if_pos (by linarith)]
  · simp only [DownBorder.test_circle_collision]
    constructor
    · intro h
      by_contra hc
      rw [if_neg (by simpa using by linarith : ¬bound - p.y - radius > 0)] at h
      exact CollisionInfo.noConfusion h
    · intro h
      rw [if_pos (by linarith)]

/-- Witness for `border_collision_spec`: the left border at 0 against a
circle at (10, 50) with radius 14 collides with depth 4. -/
theorem border_collision_spec_witness :
    LeftBorder.test_circle_collision 0 ⟨10, 50⟩ 14 =
      CollisionInfo.Yes ⟨0 + 14 - (⟨10, 50⟩ : Vec2).x, 0⟩ :=
  (border_collision_spec 0 ⟨10, 50⟩ 14).1 (by norm_num)

/-- Counterexample to claim C5 as stated: at the exact boundary
`position.x + radius = bound` the right border returns `Yes((0, 0))`, not
`No` — the claimed "`No` iff `position.x + radius <= bound`" fails at
equality. -/
theorem right_border_boundary_cex :
    (7 : ℚ) + 3 ≤ 10 ∧
    RightBorder.test_circle_collision 10 ⟨7, 5⟩ 3 ≠ CollisionInfo.No := by
  constructor
  · norm_num
  · have h : RightBorder.test_circle_collision 10 ⟨7, 5⟩ 3 = CollisionInfo.Yes ⟨0, 0⟩ := by
      unfold RightBorder.test_circle_collision
      norm_num
    rw [h]
    exact fun hc => CollisionInfo.noConfusion hc

/-- Claim C8: rigid bounce preserves the velocity magnitude.  For a
non-axis-aligned nonzero overlap the squared norm (hence the norm) is
exactly preserved in exact arithmetic; for an axis-aligned nonzero overlap
the flipped component keeps its magnitude and the other component is
exactly preserved. -/
theorem rigid_bounce_norm_preserved (v n : Vec2) :
    (n.x ≠ 0 → n.y ≠ 0 →
      Vec2.normSq (rigid_bounce v n) = Vec2.normSq v ∧
      Real.sqrt ((Vec2.normSq (rigid_bounce v n) : ℚ) : ℝ) =
        Real.sqrt ((Vec2.normSq v : ℚ) : ℝ)) ∧
    (n.x = 0 → n.y ≠ 0 →
      |(rigid_bounce v n).y| = |v.y| ∧ (rigid_bounce v n).x = v.x) ∧
    (n.y = 0 → n.x ≠ 0 →
      |(rigid_bounce v n).x| = |v.x| ∧ (rigid_bounce v n).y = v.y) := by
  refine ⟨?_, ?_, ?_⟩
  · intro hx hy
    have hns : Vec2.normSq n ≠ 0 := by
      have hpos : 0 < n.x * n.x + n.y * n.y := by
        nlinarith [mul_self_pos.mpr hx, mul_self_nonneg n.y]
      simpa [Vec2.normSq] using ne_of_gt hpos
    have heq : Vec2.normSq (rigid_bounce v n) = Vec2.normSq v := by
      simp only [rigid_bounce, hx, hy, if_neg, and_false, false_and, if_false]
      simp only [Vec2.neg, Vec2.sub, Vec2.smul, Vec2.dot, Vec2.normSq] at hns ⊢
      field_simp
      ring
    exact ⟨heq, by rw [heq]⟩
  · intro hx hy
    simp [rigid_bounce, hx, hy]
  · intro hy hx
    simp [rigid_bounce, hx, hy]

/-- Witness for `rigid_bounce_norm_preserved`: the reflection of (1, 2)
about the non-axis-aligned overlap (1, 1) keeps the squared norm. -/
theorem rigid_bounce_norm_preserved_witness :
    Vec2.normSq (rigid_bounce ⟨1, 2⟩ ⟨1, 1⟩) = Vec2.normSq ⟨1, 2⟩ :=
  ((rigid_bounce_norm_preserved ⟨1, 2⟩ ⟨1, 1⟩).1 (by norm_num) (by norm_num)).1

/-- Claim C10: `is_dead` holds exactly when the size is below 4 or above 36,
and `update` is a no-op on a dead ball for every frame factor — position,
velocity, size, flags, gem count and the overlap accumulator are all left
unchanged (the pending accumulator is neither resolved nor cleared). -/
theorem update_dead_noop (s : BallController) (factor : ℚ) :
    (s.ball.is_dead = true ↔ (s.ball.size < 4 ∨ 36 < s.ball.size)) ∧
    (s.ball.is_dead = true → BallController.update s factor = s) := by
  constructor
  · simp [Ball.is_dead, BALL_CAPACITY]
    norm_num
  · intro h
    simp [BallController.update, h]

/-- Witness for `update_dead_noop`: `update` on a dead ball of size 0 with a
pending overlap leaves the whole state unchanged. -/
theorem update_dead_noop_witness :
    BallController.update
        ⟨⟨⟨1, 2⟩, ⟨3, 4⟩, 0⟩, true, false, true, false, ⟨5, 6⟩, 2, 1⟩ 7 =
      ⟨⟨⟨1, 2⟩, ⟨3, 4⟩, 0⟩, true, false, true, false, ⟨5, 6⟩, 2, 1⟩ :=
  (update_dead_noop ⟨⟨⟨1, 2⟩, ⟨3, 4⟩, 0⟩, true, false, true, false, ⟨5, 6⟩, 2, 1⟩ 7).2
    (by norm_num [Ball.is_dead])

/-- Claim C6, amended: on a state that is NOT dead and has
`num_overlaps > 0`, `update` first corrects the position by the averaged
accumulated overlap, then sets the velocity to the rigid bounce of the old
velocity about that averaged overlap, then dampens the velocity by the
factor 0.006, clears the accumulator, and only then runs the thrust /
speed-cap / integration phase.  (The original claim omitted the dead-ball
early return.) -/
theorem update_resolution_order (s : BallController) (factor : ℚ)
    (hd : s.ball.is_dead = false) (hn : 0 < s.num_overlaps) :
    BallController.update s factor =
      BallController.post_resolution
        { s with
          ball :=
            { pos := Vec2.add s.ball.pos
                (Vec2.divScalar s.acc_overlaps (s.num_overlaps : ℚ)),
              vel := Vec2.sub
                (rigid_bounce s.ball.vel
                  (Vec2.divScalar s.acc_overlaps (s.num_overlaps : ℚ)))
                (Vec2.smul (6 / 1000)
                  (rigid_bounce s.ball.vel
                    (Vec2.divScalar s.acc_overlaps (s.num_overlaps : ℚ)))),
              size := s.ball.size },
          acc_overlaps := Vec2.zero,
          num_overlaps := 0 } factor := by
  unfold BallController.update
  rw [hd]
  simp only [Bool.false_eq_true, if_false]
  congr 1
  unfold BallController.resolve_overlaps
  rw [if_pos hn]
  simp [BallController.correct_and_rigid_bounce, Ball.add_position,
    Ball.set_velocity, Ball.decay_velocity]

/-- Witness for `update_resolution_order`: a live ball of size 28 with one
accumulated overlap (0, 2) resolves it first. -/
theorem update_resolution_order_witness :
    BallController.update
        ⟨⟨⟨0, 0⟩, ⟨1, 0⟩, 28⟩, false, false, false, false, ⟨0, 2⟩, 1, 0⟩ 1 =
      BallController.post_resolution
        ⟨⟨Vec2.add ⟨0, 0⟩ (Vec2.divScalar ⟨0, 2⟩ ((1 : ℕ) : ℚ)),
          Vec2.sub (rigid_bounce ⟨1, 0⟩ (Vec2.divScalar ⟨0, 2⟩ ((1 : ℕ) : ℚ)))
            (Vec2.smul (6 / 1000)
              (rigid_bounce ⟨1, 0⟩ (Vec2.divScalar ⟨0, 2⟩ ((1 : ℕ) : ℚ)))),
          28⟩, false, false, false, false, Vec2.zero, 0, 0⟩ 1 :=
  update_resolution_order
    ⟨⟨⟨0, 0⟩, ⟨1, 0⟩, 28⟩, false, false, false, false, ⟨0, 2⟩, 1, 0⟩ 1
    (by norm_num [Ball.is_dead, BALL_CAPACITY]) (by norm_num)

/-- Counterexample to claim C6 as stated: for a DEAD ball (size 0) with one
pending overlap (2, 2) and zero velocity, `update` changes nothing — the
position stays (0, 0) and `num_overlaps` stays 1 — while the claimed
resolution sequence (correction by the average, bounce, damping, then
thrust and integration of the zero velocity) would put the ball at (2, 2)
with an empty accumulator. -/
theorem update_resolution_order_cex :
    0 < (⟨⟨⟨0, 0⟩, ⟨0, 0⟩, 0⟩, false, false, false, false, ⟨2, 2⟩, 1, 0⟩ :
        BallController).num_overlaps ∧
    (BallController.update
        ⟨⟨⟨0, 0⟩, ⟨0, 0⟩, 0⟩, false, false, false, false, ⟨2, 2⟩, 1, 0⟩ 1).ball.pos
      = ⟨0, 0⟩ ∧
    (BallController.update
        ⟨⟨⟨0, 0⟩, ⟨0, 0⟩, 0⟩, false, false, false, false, ⟨2, 2⟩, 1, 0⟩ 1).num_overlaps
      = 1 ∧
    (BallController.post_resolution
        ⟨⟨Vec2.add ⟨0, 0⟩ (Vec2.divScalar ⟨2, 2⟩ ((1 : ℕ) : ℚ)),
          Vec2.sub (rigid_bounce ⟨0, 0⟩ (Vec2.divScalar ⟨2, 2⟩ ((1 : ℕ) : ℚ)))
            (Vec2.smul (6 / 1000)
              (rigid_bounce ⟨0, 0⟩ (Vec2.divScalar ⟨2, 2⟩ ((1 : ℕ) : ℚ)))),
          0⟩, false, false, false, false, Vec2.zero, 0, 0⟩ 1).ball.pos = ⟨2, 2⟩ ∧
    ((⟨0, 0⟩ : Vec2) ≠ ⟨2, 2⟩) := by
  have hdead : BallController.update
      ⟨⟨⟨0, 0⟩, ⟨0, 0⟩, 0⟩, false, false, false, false, ⟨2, 2⟩, 1, 0⟩ 1 =
      ⟨⟨⟨0, 0⟩, ⟨0, 0⟩, 0⟩, false, false, false, false, ⟨2, 2⟩, 1, 0⟩ := by
    unfold BallController.update Ball.is_dead BALL_CAPACITY
    norm_num
  refine ⟨by norm_num, by rw [hdead], by rw [hdead], ?_, by simp⟩
  have havg : Vec2.divScalar ⟨2, 2⟩ ((1 : ℕ) : ℚ) = ⟨2, 2⟩ := by
    unfold Vec2.divScalar
    norm_num
  have hrb : rigid_bounce ⟨0, 0⟩ (⟨2, 2⟩ : Vec2) = ⟨0, 0⟩ := by
    unfold rigid_bounce
    norm_num [Vec2.neg, Vec2.sub, Vec2.smul, Vec2.dot, Vec2.normSq]
  rw [havg, hrb]
  unfold BallController.post_resolution
  norm_num [Ball.speed_sqr, Vec2.normSq, Vec2.sub, Vec2.smul, TOO_MUCH_SPEED_SQR,
    Ball.update_position, Ball.add_size, Vec2.add]

/-- `issue_bounce` does not touch the ball itself. -/
theorem foldl_issue_bounce_ball (obs : List Vec2) (s : BallController) :
    (obs.foldl BallController.issue_bounce s).ball = s.ball := by
  induction obs generalizing s with
  | nil => rfl
  | cons o os ih => simpa [BallController.issue_bounce] using ih _

/-- `issue_bounce` increments `num_overlaps` once per call. -/
theorem foldl_issue_bounce_num (obs : List Vec2) (s : BallController) :
    (obs.foldl BallController.issue_bounce s).num_overlaps =
      s.num_overlaps + obs.length := by
  induction obs generalizing s with
  | nil => simp
  | cons o os ih =>
    simp only [List.foldl_cons, ih, BallController.issue_bounce, List.length_cons]
    omega

/-- The thrust / speed-cap / integration phase leaves the accumulator and
its counter unchanged. -/
theorem post_resolution_accumulator (t : BallController) (factor : ℚ) :
    (BallController.post_resolution t factor).num_overlaps = t.num_overlaps ∧
    (BallController.post_resolution t factor).acc_overlaps = t.acc_overlaps := by
  simp [BallController.post_resolution]

/-- A live `update` leaves the accumulator empty, provided an empty
accumulator is the only state with a zero counter. -/
theorem update_accumulator_empty (s : BallController) (factor : ℚ)
    (hd : s.ball.is_dead = false)
    (h : s.num_overlaps = 0 → s.acc_overlaps = Vec2.zero) :
    (BallController.update s factor).num_overlaps = 0 ∧
    (BallController.update s factor).acc_overlaps = Vec2.zero := by
  unfold BallController.update
  rw [hd]
  simp only [Bool.false_eq_true, if_false]
  rcases Nat.eq_zero_or_pos s.num_overlaps with h0 | hpos
  · have hres : BallController.resolve_overlaps s = s := by
      unfold BallController.resolve_overlaps
      rw [if_neg (by omega)]
    rw [hres]
    rcases post_resolution_accumulator s factor with ⟨h1, h2⟩
    exact ⟨h1.trans h0, h2.trans (h h0)⟩
  · have hres : (BallController.resolve_overlaps s).num_overlaps = 0 ∧
        (BallController.resolve_overlaps s).acc_overlaps = Vec2.zero := by
      unfold BallController.resolve_overlaps
      rw [if_pos hpos]
      simp [BallController.correct_and_rigid_bounce]
    rcases post_resolution_accumulator (BallController.resolve_overlaps s) factor with
      ⟨h1, h2⟩
    exact ⟨h1.trans hres.1, h2.trans hres.2⟩

/-- Claim C7, amended: starting a tick with an empty accumulator
(`num_overlaps = 0`, `acc_overlaps = (0,0)`) on a ball that is NOT dead,
after any number of `issue_bounce` calls during the collision pass the
subsequent `update` returns with the accumulator empty again — so the
invariant holds at the start of every tick while the ball is alive.  (The
original claim, quantified over every state, fails on dead balls, for which
`update` returns without clearing a pending accumulator.) -/
theorem accumulator_cleared_each_tick (s : BallController) (obs : List Vec2)
    (factor : ℚ) (hd : s.ball.is_dead = false)
    (h0 : s.num_overlaps = 0) (ha : s.acc_overlaps = Vec2.zero) :
    (BallController.update (obs.foldl BallController.issue_bounce s)
        factor).num_overlaps = 0 ∧
    (BallController.update (obs.foldl BallController.issue_bounce s)
        factor).acc_overlaps = Vec2.zero := by
  apply update_accumulator_empty
  · rw [foldl_issue_bounce_ball]
    exact hd
  · intro hz
    rw [foldl_issue_bounce_num, h0] at hz
    have : obs = [] := List.length_eq_zero.mp (by omega)
    subst this
    simpa using ha

/-- Witness for `accumulator_cleared_each_tick`: a live ball receiving one
wall bounce in the collision pass ends the tick with an empty
accumulator. -/
theorem accumulator_cleared_each_tick_witness :
    (BallController.update
        ([⟨1, 1⟩].foldl BallController.issue_bounce
          ⟨⟨⟨0, 0⟩, ⟨0, 0⟩, 28⟩, false, false, false, false, Vec2.zero, 0, 0⟩)
        1).num_overlaps = 0 ∧
    (BallController.update
        ([⟨1, 1⟩].foldl BallController.issue_bounce
          ⟨⟨⟨0, 0⟩, ⟨0, 0⟩, 28⟩, false, false, false, false, Vec2.zero, 0, 0⟩)
        1).acc_overlaps = Vec2.zero :=
  accumulator_cleared_each_tick
    ⟨⟨⟨0, 0⟩, ⟨0, 0⟩, 28⟩, false, false, false, false, Vec2.zero, 0, 0⟩
    [⟨1, 1⟩] 1 (by norm_num [Ball.is_dead, BALL_CAPACITY]) rfl rfl

/-- Counterexample to claim C7 as stated: on a dead ball (size 0) with a
pending overlap, `update` returns with `num_overlaps = 1` and
`acc_overlaps = (2, 2)` — the accumulator is not empty after the tick. -/
theorem accumulator_cleared_cex :
    ¬ ((BallController.update
          ⟨⟨⟨1, 1⟩, ⟨0, 0⟩, 0⟩, false, false, false, false, ⟨2, 2⟩, 1, 0⟩
          1).num_overlaps = 0 ∧
       (BallController.update
          ⟨⟨⟨1, 1⟩, ⟨0, 0⟩, 0⟩, false, false, false, false, ⟨2, 2⟩, 1, 0⟩
          1).acc_overlaps = Vec2.zero) := by
  have hdead : BallController.update
      ⟨⟨⟨1, 1⟩, ⟨0, 0⟩, 0⟩, false, false, false, false, ⟨2, 2⟩, 1, 0⟩ 1 =
      ⟨⟨⟨1, 1⟩, ⟨0, 0⟩, 0⟩, false, false, false, false, ⟨2, 2⟩, 1, 0⟩ := by
    unfold BallController.update Ball.is_dead BALL_CAPACITY
    norm_num
  rw [hdead]
  intro h
  exact absurd h.1 (by norm_num)

/-- Claim C9, amended: when the cooldown satisfies `time_to_pump <= 0` at
the moment `on_collision_simple` runs, the ball is healed by exactly 1.0
and 22 ticks are ADDED to the cooldown (which equals resetting it to 22
exactly when the cooldown was exactly 0, but leaves it below 22 when the
cooldown had gone negative); otherwise the call changes neither the ball
nor the pump. -/
theorem pump_on_collision_spec (p : Pump) (b : BallController) :
    (p.time_to_pump ≤ 0 →
      Pump.on_collision_simple p b =
        ({ p with time_to_pump := p.time_to_pump + 22 }, b.heal 1)) ∧
    (0 < p.time_to_pump → Pump.on_collision_simple p b = (p, b)) := by
  constructor
  · intro h
    simp [Pump.on_collision_simple, h]
  · intro h
    simp [Pump.on_collision_simple, not_le.mpr h]

/-- Witness for `pump_on_collision_spec`: a ready pump (cooldown 0) heals a
ball of size 28 and moves its cooldown to 22. -/
theorem pump_on_collision_spec_witness :
    Pump.on_collision_simple ⟨⟨3, 4⟩, 0⟩
        ⟨⟨⟨0, 0⟩, ⟨0, 0⟩, 28⟩, false, false, false, false, Vec2.zero, 0, 0⟩ =
      (⟨⟨3, 4⟩, 0 + 22⟩,
        BallController.heal
          ⟨⟨⟨0, 0⟩, ⟨0, 0⟩, 28⟩, false, false, false, false, Vec2.zero, 0, 0⟩ 1) :=
  (pump_on_collision_spec ⟨⟨3, 4⟩, 0⟩
    ⟨⟨⟨0, 0⟩, ⟨0, 0⟩, 28⟩, false, false, false, false, Vec2.zero, 0, 0⟩).1 le_rfl

/-- Counterexample to claim C9 as stated: with a cooldown of -1 (reachable,
since `Pump::update` decrements `time_to_pump` by the frame factor whenever
it is positive and may overshoot below zero), a triggering collision leaves
the cooldown at 21, not at the claimed reset value 22. -/
theorem pump_cooldown_not_reset_cex :
    ((-1 : ℚ) ≤ 0) ∧
    (Pump.on_collision_simple ⟨⟨0, 0⟩, -1⟩
        ⟨⟨⟨0, 0⟩, ⟨0, 0⟩, 28⟩, false, false, false, false,
          Vec2.zero, 0, 0⟩).1.time_to_pump = 21 ∧
    ((21 : ℚ) ≠ 22) := by
  refine ⟨by norm_num, ?_, by norm_num⟩
  unfold Pump.on_collision_simple
  norm_num

/-- Claim C4: the wall test clamps the circle center to the rectangle's
extent, forms the delta from the nearest point to the center, and returns
`Yes` with overlap `delta * (radius - |delta|) / |delta|` exactly when
`|delta|² ≤ radius²`; it returns `No` whenever the nearest-point distance
exceeds the radius, and something other than `No` whenever the center is
strictly inside the rectangle expanded by the radius (nearest-point
distance strictly below the radius). -/
theorem wall_test_circle_collision_spec (wpos wdim position : RVec2)
    (radius : ℝ) :
    (wallDistSq wpos wdim position ≤ radius * radius →
      Wall.test_circle_collision wpos wdim position radius =
        RCollisionInfo.Yes
          ⟨(wallDelta wpos wdim position).x *
              ((radius - Real.sqrt (wallDistSq wpos wdim position)) /
                Real.sqrt (wallDistSq wpos wdim position)),
            (wallDelta wpos wdim position).y *
              ((radius - Real.sqrt (wallDistSq wpos wdim position)) /
                Real.sqrt (wallDistSq wpos wdim position))⟩) ∧
    (radius * radius < wallDistSq wpos wdim position →
      Wall.test_circle_collision wpos wdim position radius =
        RCollisionInfo.No) ∧
    (Real.sqrt (wallDistSq wpos wdim position) < radius →
      Wall.test_circle_collision wpos wdim position radius ≠
        RCollisionInfo.No) := by
  refine ⟨?_, ?_, ?_⟩
  · intro h
    unfold Wall.test_circle_collision
    rw [if_pos h]
  · intro h
    unfold Wall.test_circle_collision
    rw [if_neg (not_le.mpr h)]
  · intro h
    have h0 : 0 ≤ wallDistSq wpos wdim position := by
      unfold wallDistSq
      exact add_nonneg (mul_self_nonneg _) (mul_self_nonneg _)
    have hle : wallDistSq wpos wdim position ≤ radius * radius := by
      nlinarith [Real.mul_self_sqrt h0,
        Real.sqrt_nonneg (wallDistSq wpos wdim position)]
    unfold Wall.test_circle_collision
    rw [if_pos hle]
    exact fun hc => RCollisionInfo.noConfusion hc

/-- Witness for `wall_test_circle_collision_spec`: a circle of radius 5
centered at (13, 5) against the wall rectangle from (0, 0) with dimensions
(10, 10) has nearest-point delta (3, 0), squared distance 9 ≤ 25, and
collides with the claimed overlap. -/
theorem wall_test_circle_collision_spec_witness :
    wallDistSq ⟨0, 0⟩ ⟨10, 10⟩ ⟨13, 5⟩ ≤ (5 : ℝ) * 5 ∧
    Wall.test_circle_collision ⟨0, 0⟩ ⟨10, 10⟩ ⟨13, 5⟩ 5 =
      RCollisionInfo.Yes
        ⟨(wallDelta ⟨0, 0⟩ ⟨10, 10⟩ ⟨13, 5⟩).x *
            ((5 - Real.sqrt (wallDistSq ⟨0, 0⟩ ⟨10, 10⟩ ⟨13, 5⟩)) /
              Real.sqrt (wallDistSq ⟨0, 0⟩ ⟨10, 10⟩ ⟨13, 5⟩)),
          (wallDelta ⟨0, 0⟩ ⟨10, 10⟩ ⟨13, 5⟩).y *
            ((5 - Real.sqrt (wallDistSq ⟨0, 0⟩ ⟨10, 10⟩ ⟨13, 5⟩)) /
              Real.sqrt (wallDistSq ⟨0, 0⟩ ⟨10, 10⟩ ⟨13, 5⟩))⟩ := by
  have h : wallDistSq ⟨0, 0⟩ ⟨10, 10⟩ ⟨13, 5⟩ ≤ (5 : ℝ) * 5 := by
    unfold wallDistSq wallDelta wallNearest
    norm_num
  exact ⟨h, (wall_test_circle_collision_spec ⟨0, 0⟩ ⟨10, 10⟩ ⟨13, 5⟩ 5).1 h⟩
